import Mathlib

/-!
Verification of the deployment state machine in `src/deploy/src/index.ts`
(Roblox auto-deploy bot).  The engine polls a build source for the newest
successful workflow run, downloads its artifact, extracts the place file,
publishes it, and records the attempt in a persisted `DeployState`.

External collaborators (GitHub API, artifact download, zip extraction, the
publish endpoint, the wall clock) are modelled as a per-tick environment
`TickEnv` that fixes the result each external call would return during that
tick.  The pure functions below mirror the control flow of the TypeScript
source line by line.
-/

namespace Deploy

/-- One workflow run as returned by the build source
(`octokit.rest.actions.listWorkflowRunsForRepo`): its numeric id and the
head commit sha.  Only these two fields of a run are consulted by the
state machine. -/
structure Run where
  id : Nat
  headSha : String
deriving DecidableEq, Repr

/-- One entry of `state.deploymentHistory` in `index.ts`:
`{ runId, deployedAt, commitSha, success, error? }`. -/
structure DeployRecord where
  runId : Nat
  deployedAt : String
  commitSha : String
  success : Bool
  error : Option String
deriving DecidableEq, Repr

/-- The persisted `DeployState` of `index.ts`:
`lastProcessedRunId : number | null`, `lastDeployedAt : string | null`,
`deploymentHistory : DeployRecord[]`. -/
structure DeployState where
  lastProcessedRunId : Option Nat
  lastDeployedAt : Option String
  deploymentHistory : List DeployRecord
deriving DecidableEq, Repr

/-- The initial in-memory state of `index.ts` (also what `loadState`
leaves in place when no state file exists). -/
def initialState : DeployState :=
  { lastProcessedRunId := none, lastDeployedAt := none, deploymentHistory := [] }

/-- The publish endpoint's HTTP response, as seen by `publishToRoblox`:
`response.ok` and the response body text (the error detail the target
reports when the request is rejected). -/
structure PublishResp where
  ok : Bool
  bodyText : String
deriving DecidableEq, Repr

/-- The behaviour of every external collaborator during one tick of
`processNewRun`:

* `sourceResp`: what `listWorkflowRunsForRepo` yields, newest first;
  `none` models the query throwing (network/auth failure), which the
  `catch` in `getLatestSuccessfulRun` turns into a `null` result.
* `artifact`: what `downloadArtifact` yields for the candidate run
  (`none` when no `place-file` artifact exists or the download throws).
* `placeFile`: what `extractPlaceFile` yields on the downloaded archive
  (`none` when `place.rbxl` is missing or extraction throws).
* `publishResp`: the publish endpoint's response.
* `now`: the value of `new Date().toISOString()` during this tick. -/
structure TickEnv where
  sourceResp : Option (List Run)
  artifact : Option (List Nat)
  placeFile : Option (List Nat)
  publishResp : PublishResp
  now : String
deriving DecidableEq, Repr

/-- `getLatestSuccessfulRun` from `index.ts`.  A thrown query is caught
and becomes `null`; an empty result set is `null`; otherwise the newest
entry `runs.workflow_runs[0]` is the candidate unless the guard
`state.lastProcessedRunId && latestRun.id <= state.lastProcessedRunId`
fires.  JavaScript truthiness: the guard is skipped when
`lastProcessedRunId` is `null` or `0`. -/
def getLatestSuccessfulRun (s : DeployState) (sourceResp : Option (List Run)) :
    Option Run :=
  match sourceResp with
  | none => none
  | some runs =>
    match runs with
    | [] => none
    | latestRun :: _ =>
      match s.lastProcessedRunId with
      | none => some latestRun
      | some v => if v ≠ 0 ∧ latestRun.id ≤ v then none else some latestRun

/-- `publishToRoblox` from `index.ts`: returns `response.ok`; when the
request is rejected the body text is only logged, never returned. -/
def publishToRoblox (resp : PublishResp) : Bool :=
  resp.ok

/-- Which exit path one invocation of `processNewRun` took.  The
TypeScript function returns `void`; this value names its four `return`
points (the log line each one prints).  `noNewRun` is the spec's
`no-new-build` outcome. -/
inductive Outcome where
  | noNewRun
  | skippedNoArtifact
  | skippedExtraction
  | deployed (success : Bool)
deriving DecidableEq, Repr

/-- The new history after pushing a record:
`push` followed by `if (length > 50) history = history.slice(-50)`. -/
def pushHistory (history : List DeployRecord) (r : DeployRecord) :
    List DeployRecord :=
  let h := history ++ [r]
  if h.length > 50 then h.drop (h.length - 50) else h

/-- `processNewRun` from `index.ts`, one tick of the engine.  Returns the
state after the tick, the exit path taken, and whether `saveState()` was
invoked during the tick (persistence of the mutated state). -/
def processNewRun (s : DeployState) (env : TickEnv) :
    DeployState × Outcome × Bool :=
  match getLatestSuccessfulRun s env.sourceResp with
  | none => (s, Outcome.noNewRun, false)
  | some run =>
    match env.artifact with
    | none =>
      ({ s with lastProcessedRunId := some run.id },
       Outcome.skippedNoArtifact, true)
    | some _artifactBuffer =>
      match env.placeFile with
      | none =>
        ({ s with lastProcessedRunId := some run.id },
         Outcome.skippedExtraction, true)
      | some _placeBuffer =>
        let success := publishToRoblox env.publishResp
        let record : DeployRecord :=
          { runId := run.id
            deployedAt := env.now
            commitSha := run.headSha
            success := success
            error := if success then none else some "Failed to publish to Roblox" }
        ({ lastProcessedRunId := some run.id
           lastDeployedAt := some env.now
           deploymentHistory := pushHistory s.deploymentHistory record },
         Outcome.deployed success, true)

/-- The state reached after a sequence of ticks. -/
def runTicks (s : DeployState) (envs : List TickEnv) : DeployState :=
  envs.foldl (fun st e => (processNewRun st e).1) s

/-- Every run id the build source hands back during a tick is positive
(GitHub run ids are positive integers). -/
def TickEnv.positiveIds (e : TickEnv) : Prop :=
  ∀ runs, e.sourceResp = some runs → ∀ r ∈ runs, 0 < r.id

/-! Concrete runs, states and tick environments used in scenario theorems
and witnesses. -/

/-- A state that has already processed build 5. -/
def stateAtFive : DeployState :=
  { lastProcessedRunId := some 5, lastDeployedAt := none, deploymentHistory := [] }

/-- A state whose persisted `lastProcessedRunId` is the number `0`. -/
def stateAtZero : DeployState :=
  { lastProcessedRunId := some 0, lastDeployedAt := none, deploymentHistory := [] }

/-- A tick in which the build-source query throws. -/
def envThrow : TickEnv :=
  { sourceResp := none, artifact := none, placeFile := none,
    publishResp := { ok := true, bodyText := "" }, now := "t1" }

/-- Build run number 42. -/
def run42 : Run := { id := 42, headSha := "sha42" }

/-- A tick in which build 42 is discovered and every pipeline step
succeeds. -/
def env42 : TickEnv :=
  { sourceResp := some [run42], artifact := some [1], placeFile := some [2],
    publishResp := { ok := true, bodyText := "ok" }, now := "t2" }

/-- Build run number 7. -/
def run7 : Run := { id := 7, headSha := "sha7" }

/-- A tick in which build 7 is discovered but no `place-file` artifact
exists for it. -/
def envNoArtifact7 : TickEnv :=
  { sourceResp := some [run7], artifact := none, placeFile := none,
    publishResp := { ok := true, bodyText := "" }, now := "t7" }

/-- A tick in which build 42 is discovered, the pipeline reaches the
publish step, and the publish target rejects the payload reporting the
error text "quota exceeded". -/
def envPublishReject : TickEnv :=
  { sourceResp := some [run42], artifact := some [1], placeFile := some [2],
    publishResp := { ok := false, bodyText := "quota exceeded" }, now := "t3" }

/-- A tick whose build-source page lists two successful runs, number 10
(newest) and number 9, with every pipeline step succeeding. -/
def envTenNine : TickEnv :=
  { sourceResp := some [{ id := 10, headSha := "shaA" }, { id := 9, headSha := "shaB" }],
    artifact := some [1], placeFile := some [2],
    publishResp := { ok := true, bodyText := "" }, now := "t4" }

/-- A tick in which build 11 is discovered and fully deployed. -/
def envEleven : TickEnv :=
  { sourceResp := some [{ id := 11, headSha := "shaC" }], artifact := some [1],
    placeFile := some [2], publishResp := { ok := true, bodyText := "" }, now := "t5" }

/-- A tick whose newest successful run is the old build 3. -/
def envOld3 : TickEnv :=
  { sourceResp := some [{ id := 3, headSha := "shaD" }], artifact := none,
    placeFile := none, publishResp := { ok := true, bodyText := "" }, now := "t6" }

/-- A tick whose newest successful run has id `0` (every pipeline step
succeeding). -/
def envZeroRun : TickEnv :=
  { sourceResp := some [{ id := 0, headSha := "shaZ" }], artifact := some [1],
    placeFile := some [2], publishResp := { ok := true, bodyText := "" }, now := "t8" }

/-- Tick number `i` of the sixty-deployment scenario: build `i + 1` is
discovered and fully deployed. -/
def successEnvAt (i : Nat) : TickEnv :=
  { sourceResp := some [{ id := i + 1, headSha := "c" }], artifact := some [1],
    placeFile := some [2], publishResp := { ok := true, bodyText := "" }, now := "t" }

/-- Sixty successive ticks deploying the distinct builds 1..60. -/
def sixtyEnvs : List TickEnv := (List.range 60).map successEnvAt

/-- The history record produced by tick `i` of the sixty-deployment
scenario. -/
def deployRecordAt (i : Nat) : DeployRecord :=
  { runId := i + 1, deployedAt := "t", commitSha := "c", success := true, error := none }

/-! Helper lemmas about candidate selection and single ticks. -/

theorem runTicks_nil (s : DeployState) : runTicks s [] = s := rfl

theorem runTicks_cons (s : DeployState) (e : TickEnv) (es : List TickEnv) :
    runTicks s (e :: es) = runTicks (processNewRun s e).1 es := rfl

/-- A candidate is always the newest entry of the page the build source
returned. -/
theorem getLatest_some_head (s : DeployState) (resp : Option (List Run)) (r : Run)
    (h : getLatestSuccessfulRun s resp = some r) :
    ∃ rest, resp = some (r :: rest) := by
  unfold getLatestSuccessfulRun at h
  cases resp with
  | none => simp at h
  | some runs =>
    cases runs with
    | nil => simp at h
    | cons a rest =>
      refine ⟨rest, ?_⟩
      cases hl : s.lastProcessedRunId with
      | none => rw [hl] at h; simp at h; rw [h]
      | some v =>
        rw [hl] at h
        by_cases hg : v ≠ 0 ∧ a.id ≤ v
        · simp [hg] at h
        · simp [hg] at h; rw [h]

/-- When the guard field is set, a selected candidate either met a zero
guard value or strictly exceeds it. -/
theorem getLatest_some_gt (s : DeployState) (resp : Option (List Run)) (r : Run)
    (v : Nat) (h : getLatestSuccessfulRun s resp = some r)
    (hv : s.lastProcessedRunId = some v) : v = 0 ∨ v < r.id := by
  unfold getLatestSuccessfulRun at h
  cases resp with
  | none => simp at h
  | some runs =>
    cases runs with
    | nil => simp at h
    | cons a rest =>
      rw [hv] at h
      by_cases hg : v ≠ 0 ∧ a.id ≤ v
      · simp [hg] at h
      · simp [hg] at h
        rw [← h]
        omega

/-- The guard skips the newest run whenever the stored id is nonzero and
at least the newest id. -/
theorem getLatest_skip (s : DeployState) (r : Run) (rest : List Run) (v : Nat)
    (hv : s.lastProcessedRunId = some v) (h0 : v ≠ 0) (hle : r.id ≤ v) :
    getLatestSuccessfulRun s (some (r :: rest)) = none := by
  unfold getLatestSuccessfulRun
  rw [hv]
  simp [h0, hle]

/-- A tick without a candidate returns without touching the state and
without saving. -/
theorem processNewRun_of_none (s : DeployState) (env : TickEnv)
    (h : getLatestSuccessfulRun s env.sourceResp = none) :
    processNewRun s env = (s, Outcome.noNewRun, false) := by
  unfold processNewRun
  rw [h]

/-- Every exit path of a tick that found a candidate stores the
candidate's id and saves the state. -/
theorem processNewRun_of_some (s : DeployState) (env : TickEnv) (run : Run)
    (h : getLatestSuccessfulRun s env.sourceResp = some run) :
    (processNewRun s env).1.lastProcessedRunId = some run.id ∧
    (processNewRun s env).2.2 = true := by
  unfold processNewRun
  rw [h]
  cases env.artifact with
  | none => exact ⟨rfl, rfl⟩
  | some a =>
    cases env.placeFile with
    | none => exact ⟨rfl, rfl⟩
    | some p => exact ⟨rfl, rfl⟩

/-- One tick against a source with positive run ids never decreases a
stored `lastProcessedRunId`. -/
theorem lastProcessed_mono_step (s : DeployState) (env : TickEnv) (v : Nat)
    (hpos : env.positiveIds) (hv : s.lastProcessedRunId = some v) :
    ∃ v2, (processNewRun s env).1.lastProcessedRunId = some v2 ∧ v ≤ v2 := by
  cases hc : getLatestSuccessfulRun s env.sourceResp with
  | none =>
    refine ⟨v, ?_, le_refl v⟩
    rw [processNewRun_of_none s env hc]
    exact hv
  | some r =>
    have hid := (processNewRun_of_some s env r hc).1
    rcases getLatest_some_gt s env.sourceResp r v hc hv with h0 | hlt
    · obtain ⟨rest, hresp⟩ := getLatest_some_head s env.sourceResp r hc
      have hr : 0 < r.id := hpos _ hresp r (List.mem_cons_self _ _)
      exact ⟨r.id, hid, by omega⟩
    · exact ⟨r.id, hid, le_of_lt hlt⟩

/-- Any sequence of ticks against sources with positive run ids never
decreases a stored `lastProcessedRunId`. -/
theorem lastProcessed_mono_ticks (s : DeployState) (envs : List TickEnv) (v : Nat)
    (hpos : ∀ e ∈ envs, e.positiveIds) (hv : s.lastProcessedRunId = some v) :
    ∃ v2, (runTicks s envs).lastProcessedRunId = some v2 ∧ v ≤ v2 := by
  induction envs generalizing s v with
  | nil => exact ⟨v, hv, le_refl v⟩
  | cons e es ih =>
    obtain ⟨v1, hv1, hle1⟩ :=
      lastProcessed_mono_step s e v (hpos e (List.mem_cons_self _ _)) hv
    obtain ⟨v2, hv2, hle2⟩ :=
      ih (processNewRun s e).1 v1 (fun x hx => hpos x (List.mem_cons_of_mem _ hx)) hv1
    exact ⟨v2, by rw [runTicks_cons]; exact hv2, le_trans hle1 hle2⟩

/-- Pushing a record keeps it as the newest (last) history entry even
when the 50-entry bound evicts old records from the front. -/
theorem pushHistory_getLast (l : List DeployRecord) (r : DeployRecord) :
    (pushHistory l r).getLast? = some r := by
  unfold pushHistory
  dsimp only
  split
  · rw [List.drop_append_of_le_length (by simp), List.getLast?_append_cons]
    rfl
  · rw [List.getLast?_append_cons]
    rfl

/-- Pushing a record keeps the history within the 50-entry bound. -/
theorem pushHistory_length_le (l : List DeployRecord) (r : DeployRecord)
    (h : l.length ≤ 50) : (pushHistory l r).length ≤ 50 := by
  unfold pushHistory
  dsimp only
  split
  · simp
    omega
  · simp at *
    omega

/-- The publish path of a tick: artifact download and extraction both
succeeded, so the state records the deployment attempt in full. -/
theorem processNewRun_publish (s : DeployState) (env : TickEnv) (run : Run)
    (a p : List Nat)
    (hc : getLatestSuccessfulRun s env.sourceResp = some run)
    (ha : env.artifact = some a) (hp : env.placeFile = some p) :
    processNewRun s env =
      ({ lastProcessedRunId := some run.id
         lastDeployedAt := some env.now
         deploymentHistory := pushHistory s.deploymentHistory
           { runId := run.id, deployedAt := env.now, commitSha := run.headSha,
             success := publishToRoblox env.publishResp,
             error := if publishToRoblox env.publishResp then none
                      else some "Failed to publish to Roblox" } },
       Outcome.deployed (publishToRoblox env.publishResp), true) := by
  unfold processNewRun
  rw [hc, ha, hp]

/-- The two early-termination paths of a tick (artifact fetch failure,
extraction failure): only `lastProcessedRunId` changes. -/
theorem processNewRun_early (s : DeployState) (env : TickEnv) (run : Run)
    (hc : getLatestSuccessfulRun s env.sourceResp = some run)
    (he : env.artifact = none ∨ env.placeFile = none) :
    (processNewRun s env).1 = { s with lastProcessedRunId := some run.id } ∧
    ((processNewRun s env).2.1 = Outcome.skippedNoArtifact ∨
     (processNewRun s env).2.1 = Outcome.skippedExtraction) := by
  unfold processNewRun
  rw [hc]
  rcases he with h | h
  · rw [h]
    exact ⟨rfl, Or.inl rfl⟩
  · cases hart : env.artifact with
    | none => exact ⟨rfl, Or.inl rfl⟩
    | some a =>
      rw [h]
      exact ⟨rfl, Or.inr rfl⟩

/-- C1 (amended): a DeploymentRecord is appended only when the attempt
reaches the publish step — it then carries the publish outcome, with the
fixed reason "Failed to publish to Roblox" on failure; attempts that
terminate at artifact fetch or at extraction leave the history unchanged
(no record, no reason) while still advancing `lastProcessedRunId`. -/
theorem C1_record_only_at_publish (s : DeployState) (env : TickEnv) (run : Run)
    (hc : getLatestSuccessfulRun s env.sourceResp = some run) :
    ((env.artifact = none ∨ env.placeFile = none) →
      (processNewRun s env).1.deploymentHistory = s.deploymentHistory) ∧
    (∀ a p, env.artifact = some a → env.placeFile = some p →
      (processNewRun s env).1.deploymentHistory =
        pushHistory s.deploymentHistory
          { runId := run.id, deployedAt := env.now, commitSha := run.headSha,
            success := publishToRoblox env.publishResp,
            error := if publishToRoblox env.publishResp then none
                     else some "Failed to publish to Roblox" }) ∧
    (processNewRun s env).1.lastProcessedRunId = some run.id := by
  refine ⟨?_, ?_, (processNewRun_of_some s env run hc).1⟩
  · intro he
    rw [(processNewRun_early s env run hc he).1]
  · intro a p ha hp
    rw [processNewRun_publish s env run a p hc ha hp]

/-- C1 as stated is false on the code: build 7 is processed (outcome
`skippedNoArtifact`, `lastProcessedRunId` advances to 7) yet no
DeploymentRecord with reason "no artifact" — or any record at all — is
appended: the history stays empty. -/
theorem C1_counterexample :
    (processNewRun initialState envNoArtifact7).2.1 = Outcome.skippedNoArtifact ∧
    (processNewRun initialState envNoArtifact7).1.lastProcessedRunId = some 7 ∧
    (processNewRun initialState envNoArtifact7).1.deploymentHistory = [] := by
  decide

/-- Witness for C1 (amended): the artifact-fetch failure on build 7
leaves the history exactly as it was. -/
theorem C1_witness :
    (processNewRun initialState envNoArtifact7).1.deploymentHistory =
      initialState.deploymentHistory :=
  (C1_record_only_at_publish initialState envNoArtifact7 run7 rfl).1 (Or.inl rfl)

/-- C3 (amended): when the publish target rejects the payload, the
appended record is `failed` with the fixed reason string
"Failed to publish to Roblox", regardless of the error detail the target
reported (which is only logged). -/
theorem C3_fixed_failure_reason (s : DeployState) (env : TickEnv) (run : Run)
    (a p : List Nat)
    (hc : getLatestSuccessfulRun s env.sourceResp = some run)
    (ha : env.artifact = some a) (hp : env.placeFile = some p)
    (hrej : env.publishResp.ok = false) :
    (processNewRun s env).2.1 = Outcome.deployed false ∧
    (processNewRun s env).1.deploymentHistory.getLast? = some
      { runId := run.id, deployedAt := env.now, commitSha := run.headSha,
        success := false, error := some "Failed to publish to Roblox" } := by
  rw [processNewRun_publish s env run a p hc ha hp]
  have hfb : publishToRoblox env.publishResp = false := by
    simp [publishToRoblox, hrej]
  rw [hfb]
  exact ⟨rfl, pushHistory_getLast s.deploymentHistory _⟩

/-- C3 as stated is false on the code: the target rejects reporting
"quota exceeded", but the recorded reason is the fixed string
"Failed to publish to Roblox", not the target's reported error. -/
theorem C3_counterexample :
    (processNewRun initialState envPublishReject).1.deploymentHistory =
      [{ runId := 42, deployedAt := "t3", commitSha := "sha42", success := false,
         error := some "Failed to publish to Roblox" }] ∧
    envPublishReject.publishResp.bodyText = "quota exceeded" ∧
    Option.map DeployRecord.error
        (processNewRun initialState envPublishReject).1.deploymentHistory.getLast? ≠
      some (some envPublishReject.publishResp.bodyText) := by
  decide

/-- Witness for C3 (amended): the rejected publish of build 42 yields
outcome `deployed false`. -/
theorem C3_witness :
    (processNewRun initialState envPublishReject).2.1 = Outcome.deployed false :=
  (C3_fixed_failure_reason initialState envPublishReject run42 [1] [2]
    rfl rfl rfl rfl).1

/-- C9: `lastDeployedAt` is set to the tick's clock whenever the attempt
reaches the publish step — even when the publish fails — and attempts
that terminate at artifact fetch or at extraction leave `lastDeployedAt`
and the history unchanged. -/
theorem C9_lastDeployedAt_frame (s : DeployState) (env : TickEnv) (run : Run)
    (hc : getLatestSuccessfulRun s env.sourceResp = some run) :
    (∀ a p, env.artifact = some a → env.placeFile = some p →
      (processNewRun s env).1.lastDeployedAt = some env.now) ∧
    ((env.artifact = none ∨ env.placeFile = none) →
      (processNewRun s env).1.lastDeployedAt = s.lastDeployedAt ∧
      (processNewRun s env).1.deploymentHistory = s.deploymentHistory) := by
  constructor
  · intro a p ha hp
    rw [processNewRun_publish s env run a p hc ha hp]
  · intro he
    rw [(processNewRun_early s env run hc he).1]
    exact ⟨rfl, rfl⟩

/-- Witness for C9: the failed publish of build 42 still stamps
`lastDeployedAt` with the tick's clock. -/
theorem C9_witness :
    (processNewRun initialState envPublishReject).1.lastDeployedAt = some "t3" :=
  (C9_lastDeployedAt_frame initialState envPublishReject run42 rfl).1 [1] [2] rfl rfl

/-- C4: with a nonzero `lastProcessedRunId`, a tick whose build-source
page is empty or whose newest id is at most the stored id yields
`no-new-build`, performs no mutation and no save, and re-invoking under
the same page is idempotent. -/
theorem C4_no_new_build_no_mutation (s : DeployState) (env : TickEnv) (v : Nat)
    (runs : List Run)
    (hv : s.lastProcessedRunId = some v) (h0 : v ≠ 0)
    (hresp : env.sourceResp = some runs)
    (hle : runs = [] ∨ ∃ r rest, runs = r :: rest ∧ r.id ≤ v) :
    processNewRun s env = (s, Outcome.noNewRun, false) ∧
    processNewRun (processNewRun s env).1 env = (s, Outcome.noNewRun, false) := by
  have hnone : getLatestSuccessfulRun s env.sourceResp = none := by
    rcases hle with hnil | ⟨r, rest, hcons, hler⟩
    · rw [hresp, hnil]; rfl
    · rw [hresp, hcons]; exact getLatest_skip s r rest v hv h0 hler
  have h1 := processNewRun_of_none s env hnone
  refine ⟨h1, ?_⟩
  rw [h1]
  exact h1

/-- Witness for C4: a state at build 5 sees a page whose newest run is
build 3 and nothing changes. -/
theorem C4_witness :
    processNewRun stateAtFive envOld3 = (stateAtFive, Outcome.noNewRun, false) :=
  (C4_no_new_build_no_mutation stateAtFive envOld3 5 [{ id := 3, headSha := "shaD" }]
    rfl (by decide) rfl (Or.inr ⟨{ id := 3, headSha := "shaD" }, [], rfl, by decide⟩)).1

/-- C5: a thrown build-source query is treated as `no-new-build` with no
state mutation and no save, so the build is retried later: with a source
that throws on tick 1 and returns build 42 on tick 2, after tick 2 the
state holds `lastProcessedRunId = 42` and exactly one history record. -/
theorem C5_discovery_failure_transient :
    (∀ (s : DeployState) (env : TickEnv), env.sourceResp = none →
      processNewRun s env = (s, Outcome.noNewRun, false)) ∧
    (runTicks initialState [envThrow, env42]).lastProcessedRunId = some 42 ∧
    (runTicks initialState [envThrow, env42]).deploymentHistory.length = 1 := by
  refine ⟨?_, ?_, ?_⟩
  · intro s env h
    apply processNewRun_of_none
    rw [h]
    rfl
  · decide
  · decide

/-- Witness for C5: the throwing tick leaves the fresh state untouched. -/
theorem C5_witness :
    processNewRun initialState envThrow = (initialState, Outcome.noNewRun, false) :=
  C5_discovery_failure_transient.1 initialState envThrow rfl

/-- C10: the already-processed guard tests JavaScript truthiness, so a
stored `lastProcessedRunId` of `0` never suppresses a candidate: any
newest run is selected regardless of its id, and the tick processes it. -/
theorem C10_zero_id_guard_bypassed (s : DeployState) (env : TickEnv) (r : Run)
    (rest : List Run) (h0 : s.lastProcessedRunId = some 0)
    (hresp : env.sourceResp = some (r :: rest)) :
    getLatestSuccessfulRun s env.sourceResp = some r ∧
    (processNewRun s env).1.lastProcessedRunId = some r.id := by
  have hc : getLatestSuccessfulRun s env.sourceResp = some r := by
    rw [hresp]
    unfold getLatestSuccessfulRun
    rw [h0]
    simp
  exact ⟨hc, (processNewRun_of_some s env r hc).1⟩

/-- Witness for C10: a state with stored id `0` accepts even a newest run
whose id is `0`. -/
theorem C10_witness :
    getLatestSuccessfulRun stateAtZero envZeroRun.sourceResp =
      some { id := 0, headSha := "shaZ" } :=
  (C10_zero_id_guard_bypassed stateAtZero envZeroRun
    { id := 0, headSha := "shaZ" } [] rfl rfl).1

/-- All run ids of `envEleven` are positive. -/
theorem envEleven_positiveIds : envEleven.positiveIds := by
  intro runs hruns r hr
  simp only [envEleven] at hruns
  rw [Option.some_inj] at hruns
  subst hruns
  simp only [List.mem_singleton] at hr
  subst hr
  decide

/-- All run ids of `env42` are positive. -/
theorem env42_positiveIds : env42.positiveIds := by
  intro runs hruns r hr
  simp only [env42] at hruns
  rw [Option.some_inj] at hruns
  subst hruns
  simp only [List.mem_singleton] at hr
  subst hr
  decide

/-- Membership form of `envEleven_positiveIds` for singleton tick lists. -/
theorem envEleven_mem_positive : ∀ e ∈ [envEleven], e.positiveIds := by
  intro e he
  simp only [List.mem_singleton] at he
  subst he
  exact envEleven_positiveIds

/-- C2: every processed candidate (with a positive id) advances
`lastProcessedRunId` to its id and persists the state before the tick
returns, and on every later tick — after any further ticks against
positive run ids — a build-source page whose newest id is at most the
candidate's id (or an empty page) yields `no-new-build` with no
mutation: the build is never attempted again. -/
theorem C2_processed_build_never_retried (s : DeployState) (env : TickEnv)
    (run : Run) (hc : getLatestSuccessfulRun s env.sourceResp = some run)
    (hpos : 0 < run.id) :
    (processNewRun s env).1.lastProcessedRunId = some run.id ∧
    (processNewRun s env).2.2 = true ∧
    ∀ envs, (∀ e ∈ envs, e.positiveIds) →
      ∀ env2 runs2, env2.sourceResp = some runs2 →
        (runs2 = [] ∨ ∃ r2 rest2, runs2 = r2 :: rest2 ∧ r2.id ≤ run.id) →
        processNewRun (runTicks (processNewRun s env).1 envs) env2 =
          (runTicks (processNewRun s env).1 envs, Outcome.noNewRun, false) := by
  obtain ⟨h1, h2⟩ := processNewRun_of_some s env run hc
  refine ⟨h1, h2, ?_⟩
  intro envs hposes env2 runs2 hresp2 hle
  obtain ⟨v2, hv2, hge⟩ :=
    lastProcessed_mono_ticks (processNewRun s env).1 envs run.id hposes h1
  apply processNewRun_of_none
  rcases hle with hnil | ⟨r2, rest2, hcons, hler⟩
  · rw [hresp2, hnil]; rfl
  · rw [hresp2, hcons]
    exact getLatest_skip _ r2 rest2 v2 hv2 (by omega) (by omega)

/-- Witness for C2: after deploying build 42, a page whose newest run is
build 3 changes nothing. -/
theorem C2_witness :
    processNewRun (runTicks (processNewRun initialState env42).1 []) envOld3 =
      (runTicks (processNewRun initialState env42).1 [], Outcome.noNewRun, false) :=
  (C2_processed_build_never_retried initialState env42 run42 rfl (by decide)).2.2
    [] (fun e he => absurd he (List.not_mem_nil e)) envOld3
    [{ id := 3, headSha := "shaD" }] rfl
    (Or.inr ⟨{ id := 3, headSha := "shaD" }, [], rfl, by decide⟩)

/-- C6: a tick preserves the 50-entry history bound, and sixty
successive distinct successful deployments (builds 1..60) leave exactly
the records of the 50 most recent builds 11..60, in deployment order. -/
theorem C6_history_bounded (s : DeployState) (env : TickEnv)
    (h : s.deploymentHistory.length ≤ 50) :
    (processNewRun s env).1.deploymentHistory.length ≤ 50 ∧
    (runTicks initialState sixtyEnvs).deploymentHistory =
      ((List.range 60).drop 10).map deployRecordAt := by
  constructor
  · cases hc : getLatestSuccessfulRun s env.sourceResp with
    | none =>
      rw [processNewRun_of_none s env hc]
      exact h
    | some run =>
      cases ha : env.artifact with
      | none =>
        rw [(processNewRun_early s env run hc (Or.inl ha)).1]
        exact h
      | some a =>
        cases hp : env.placeFile with
        | none =>
          rw [(processNewRun_early s env run hc (Or.inr hp)).1]
          exact h
        | some p =>
          rw [processNewRun_publish s env run a p hc ha hp]
          exact pushHistory_length_le _ _ h
  · set_option maxRecDepth 4000 in decide

/-- Witness for C6: one tick from the fresh empty state keeps the
history within the bound. -/
theorem C6_witness :
    (processNewRun initialState env42).1.deploymentHistory.length ≤ 50 :=
  (C6_history_bounded initialState env42 (by decide)).1

/-- C7: only the newest successful build is considered per tick: with
page [build 10, build 9] on the first tick, the state advances to 10,
and on every later tick against positive run ids the selected candidate
is never build 9. -/
theorem C7_only_newest_considered :
    (runTicks initialState [envTenNine]).lastProcessedRunId = some 10 ∧
    ∀ envs : List TickEnv, (∀ e ∈ envs, e.positiveIds) →
      ∀ i (hi : i < envs.length) r,
        getLatestSuccessfulRun
            (runTicks (runTicks initialState [envTenNine]) (envs.take i))
            (envs.get ⟨i, hi⟩).sourceResp = some r →
          r.id ≠ 9 := by
  have h10 : (runTicks initialState [envTenNine]).lastProcessedRunId = some 10 := by
    decide
  refine ⟨h10, ?_⟩
  intro envs hpos i hi r hr
  obtain ⟨v, hv, hge⟩ :=
    lastProcessed_mono_ticks (runTicks initialState [envTenNine]) (envs.take i) 10
      (fun e he => hpos e (List.mem_of_mem_take he)) h10
  rcases getLatest_some_gt _ _ r v hr hv with h0 | hlt
  · omega
  · omega

/-- Witness for C7: on the tick after the [10, 9] page, the candidate is
build 11, not build 9. -/
theorem C7_witness : Run.id { id := 11, headSha := "shaC" } ≠ 9 :=
  C7_only_newest_considered.2 [envEleven] envEleven_mem_positive 0 (by decide)
    { id := 11, headSha := "shaC" } (by decide)

/-- C8: `lastProcessedRunId`, once set, is monotonically non-decreasing:
at any state reached from the fresh state by ticks against build sources
with positive run ids, a further invocation never stores a smaller
value. -/
theorem C8_lastProcessed_monotone (envs : List TickEnv) (env : TickEnv) (v : Nat)
    ( _hreach : ∀ e ∈ envs, e.positiveIds) (hpose : env.positiveIds)
    (hv : (runTicks initialState envs).lastProcessedRunId = some v) :
    ∃ v2, (processNewRun (runTicks initialState envs) env).1.lastProcessedRunId
        = some v2 ∧ v ≤ v2 :=
  lastProcessed_mono_step (runTicks initialState envs) env v hpose hv

/-- Witness for C8: after deploying build 42, a tick offering build 11
does not lower the stored id below 42. -/
theorem C8_witness :
    ∃ v2, (processNewRun (runTicks initialState [env42]) envEleven).1.lastProcessedRunId
        = some v2 ∧ 42 ≤ v2 :=
  C8_lastProcessed_monotone [env42]
    envEleven 42 (fun e he => by
      simp only [List.mem_singleton] at he
      subst he
      exact env42_positiveIds)
    envEleven_positiveIds (by decide)

end Deploy
